import Mathlib

/-!
Verification of the connection-broker core of the dosqlite repository
(src/listener.go), shallowly embedded in Lean 4.

Modelling conventions:
* byte sequences are `List Nat` (Go bytes are values below 256; the wire
  arithmetic is explicit `% 2^32` where Go narrows with `uint32(...)`);
* a Go `context.Context` produced by `context.WithCancelCause` is modelled
  by `Option Err`: `none` means live, `some c` means cancelled with latched
  cause `c` (Go latches `context.Canceled` when the cancel function is
  invoked with a nil cause, and the first cause wins);
* the process-wide map `listenerConns` guarded by `listenerConnsMu` is an
  association list; each operation that the source performs under the lock
  is one atomic Lean function;
* the network peer behind an accepted socket is a function from the framed
  request bytes to either framed response bytes or a transport error, so
  one `listenerConn.send` round trip is one application of that function;
* blocking points (channel receives, `<-ctx.Done()`) cannot be functions,
  so each operation is split exactly where the source blocks: a fast path
  that returns the decision taken before blocking, and the value computed
  from the state observed at wake-up time.
-/

/-- Error values that appear in src/listener.go: `context.Canceled`,
`io.EOF`, the two fmt.Errorf messages, and other transport errors. -/
inductive Err where
  | canceled
  | eof
  | notFound
  | noActiveConnection
  | connErr (msg : String)
  deriving DecidableEq, Repr

/-- Big-endian 4-byte header written by `binary.BigEndian.PutUint32`
(src/listener.go line 175) for a value already reduced below 2^32. -/
def toBytes4BE (n : Nat) : List Nat :=
  [n / 2 ^ 24 % 256, n / 2 ^ 16 % 256, n / 2 ^ 8 % 256, n % 256]

/-- Big-endian 4-byte read performed by `binary.BigEndian.Uint32`
(src/listener.go line 191). -/
def fromBytes4BE (b0 b1 b2 b3 : Nat) : Nat :=
  ((b0 * 256 + b1) * 256 + b2) * 256 + b3

/-- Frame encoding from `listenerConn.send` (src/listener.go lines 172-183):
a 4-byte big-endian header holding `uint32(len(payload))` — the length
narrowed modulo 2^32 — followed by the payload bytes. -/
def encodeFrame (p : List Nat) : List Nat :=
  toBytes4BE (p.length % 2 ^ 32) ++ p

/-- Frame decoding from `listenerConn.send` (src/listener.go lines 185-195):
read exactly 4 header bytes, then exactly that many payload bytes; a stream
that ends before either read completes is a short read (`none`, which the
source surfaces as the `io.ReadFull` error). Returns the payload and the
bytes remaining in the stream. -/
def decodeFrame : List Nat → Option (List Nat × List Nat)
  | b0 :: b1 :: b2 :: b3 :: rest =>
    let n := fromBytes4BE b0 b1 b2 b3
    if rest.length < n then none else some (rest.take n, rest.drop n)
  | _ => none

theorem fromBytes4BE_toBytes4BE (n : Nat) (h : n < 2 ^ 32) :
    fromBytes4BE (n / 2 ^ 24 % 256) (n / 2 ^ 16 % 256) (n / 2 ^ 8 % 256) (n % 256) = n := by
  unfold fromBytes4BE
  omega

/-- Claim C3 — amended. For every payload of length below 2^32, the frame
header equals the payload length in big-endian and decoding the encoding
returns the payload exactly, with nothing left over. -/
theorem frame_roundtrip (p : List Nat) (h : p.length < 2 ^ 32) :
    encodeFrame p = toBytes4BE p.length ++ p ∧
    decodeFrame (encodeFrame p) = some (p, []) := by
  have hm : p.length % 2 ^ 32 = p.length := Nat.mod_eq_of_lt h
  constructor
  · rw [encodeFrame, hm]
  · rw [encodeFrame, hm]
    show decodeFrame
      (p.length / 2 ^ 24 % 256 :: p.length / 2 ^ 16 % 256 ::
        p.length / 2 ^ 8 % 256 :: p.length % 256 :: p) = some (p, [])
    rw [decodeFrame]
    simp only [fromBytes4BE_toBytes4BE p.length h, Nat.lt_irrefl, if_false,
      List.take_length, List.drop_length]

/-- Witness for frame_roundtrip at a concrete payload. -/
theorem frame_roundtrip_witness :
    ([1, 2, 3] : List Nat).length < 2 ^ 32 ∧
      decodeFrame (encodeFrame [1, 2, 3]) = some ([1, 2, 3], []) :=
  ⟨by norm_num, (frame_roundtrip [1, 2, 3] (by norm_num)).2⟩

/-- Helper: a payload whose length is a multiple of 2^32 is framed with an
all-zero header, and decoding such a frame yields the empty payload. -/
theorem decodeFrame_encodeFrame_wrap (p : List Nat) (h : p.length % 2 ^ 32 = 0) :
    encodeFrame p = 0 :: 0 :: 0 :: 0 :: p ∧
      decodeFrame (encodeFrame p) = some ([], p) := by
  have henc : encodeFrame p = 0 :: 0 :: 0 :: 0 :: p := by
    rw [encodeFrame, h]
    norm_num [toBytes4BE]
  refine ⟨henc, ?_⟩
  rw [henc]
  show decodeFrame (0 :: 0 :: 0 :: 0 :: p) = some ([], p)
  rw [decodeFrame]
  norm_num [fromBytes4BE]

/-- Claim C3 — counterexample. The claim asserts the round trip for payloads
of any length with no size ceiling, the length prefix always equal to the
payload size. At the concrete payload of 2^32 zero bytes, `uint32(len)`
narrows the length to 0, the emitted header is four zero bytes (a prefix not
equal to the payload size), and decoding the encoding yields the empty
payload, not the original. -/
theorem frame_roundtrip_counterexample :
    (decodeFrame (encodeFrame (List.replicate (2 ^ 32) 0))).map Prod.fst =
        some ([] : List Nat) ∧
      encodeFrame (List.replicate (2 ^ 32) 0) =
        0 :: 0 :: 0 :: 0 :: List.replicate (2 ^ 32) 0 ∧
      ([] : List Nat) ≠ List.replicate (2 ^ 32) (0 : Nat) := by
  have hlen : (List.replicate (2 ^ 32) (0 : Nat)).length = 2 ^ 32 :=
    List.length_replicate _ _
  have hmod : (List.replicate (2 ^ 32) (0 : Nat)).length % 2 ^ 32 = 0 := by
    rw [hlen]
    exact Nat.mod_self _
  obtain ⟨henc, hdec⟩ := decodeFrame_encodeFrame_wrap _ hmod
  refine ⟨?_, henc, ?_⟩
  · rw [hdec]
    rfl
  · intro h
    have h2 := congrArg List.length h
    rw [hlen] at h2
    simp at h2

/-- Result pushed on `readChan` (src/listener.go lines 23-26): a response
string (payload bytes) or an error. -/
structure SendResp where
  resp : List Nat
  err : Option Err
  deriving DecidableEq, Repr

/-- The `listenerConn` struct (src/listener.go lines 15-21). The socket is
identified by a number (`none` models a nil `conn`); `writeChan` and
`readChan` are the buffered channels as FIFO queues; `ctx` is the
cancellation state, `none` while live and `some cause` once cancelled (a
nil-cause cancel latches `Err.canceled`, matching `context.Canceled`).
The extra `loopExited` flag records whether the `runLoop` goroutine has
returned; it is not a field of the Go struct but the status of the
goroutine started for this connection. -/
structure ListenerConn where
  conn : Option Nat
  writeChan : List (List Nat)
  readChan : List SendResp
  ctx : Option Err
  loopExited : Bool
  deriving DecidableEq, Repr

/-- Semantics of the `context.CancelCauseFunc`: the first cause wins, and
cancelling with a nil cause latches `context.Canceled`. -/
def cancelCause (cause : Option Err) (l : ListenerConn) : ListenerConn :=
  if l.ctx.isSome then l else { l with ctx := some (cause.getD .canceled) }

/-- The process-wide `listenerConns` map (src/listener.go line 12), keyed by
the bound address string. -/
abbrev Registry := List (String × ListenerConn)

/-- Map lookup `listenerConns[addr]`. -/
def lookupConn (reg : Registry) (a : String) : Option ListenerConn :=
  (List.find? (fun p => p.1 == a) reg).map Prod.snd

/-- Map store `listenerConns[addr] = l` (Go map assignment replaces any
previous entry for the key). -/
def insertConn (reg : Registry) (a : String) (l : ListenerConn) : Registry :=
  (a, l) :: List.filter (fun p => !(p.1 == a)) reg

/-- Map removal `delete(listenerConns, addr)`. -/
def eraseConn (reg : Registry) (a : String) : Registry :=
  List.filter (fun p => !(p.1 == a)) reg

/-- The `listener` struct returned by `AddListener` (src/listener.go lines
28-31); the passive socket itself is an external OS resource and is not
part of the state. -/
structure Listener where
  addr : String
  deriving DecidableEq, Repr

/-- Registry effect of `AddListener` (src/listener.go lines 102-118,151):
after the passive socket is bound, the entry for the actually bound address
`actualAddr` (the result of `ln.Addr().String()`, which differs from the
requested address when port 0 was requested) is installed with no socket,
empty channels and a fresh uncancelled context, and the returned handle
carries that same address. The bind itself is an OS action, so the bound
address is a parameter; a bind failure panics in the source and produces no
registry entry at all. -/
def addListener (reg : Registry) (actualAddr : String) : Registry × Listener :=
  (insertConn reg actualAddr
    { conn := none, writeChan := [], readChan := [], ctx := none, loopExited := false },
   { addr := actualAddr })

/-- One successful iteration of the accept loop (src/listener.go lines
133-148), performed atomically under `listenerConnsMu.Lock`: the previous
entry, if any, is cancelled with a nil cause (superseded), and a fresh
`listenerConn` owning the accepted socket `sock` is installed. The
cancelled previous entry is returned as well because blocked callers hold a
pointer to it and observe the cancellation. -/
def acceptStep (reg : Registry) (addr : String) (sock : Nat) :
    Registry × Option ListenerConn :=
  (insertConn reg addr
    { conn := some sock, writeChan := [], readChan := [], ctx := none, loopExited := false },
   (lookupConn reg addr).map (cancelCause none))

/-- The accept-failure path of the accept loop (src/listener.go lines
124-131): the current entry, if any, is cancelled in place with the accept
error as cause, and the loop returns. The entry stays in the map. -/
def acceptFail (reg : Registry) (addr : String) (e : Err) : Registry :=
  match lookupConn reg addr with
  | none => reg
  | some lis => insertConn reg addr (cancelCause (some e) lis)

/-- Result of `listener.Close` (src/listener.go lines 84-100). The passive
socket and the session socket closes are external OS effects; the map and
cancellation effects are recorded here, with `cancelledEntry` the view that
blocked callers holding the entry pointer observe. -/
structure CloseResult where
  reg : Registry
  err : Option Err
  cancelledEntry : Option ListenerConn

/-- The `listener.Close` method (src/listener.go lines 84-100), atomic under
`listenerConnsMu.Lock`: it closes the passive socket unconditionally, then
fails with the not-found error when the entry is absent, and otherwise
cancels the entry with a nil cause, closes its socket if present, and
removes it from the map. -/
def closeListener (reg : Registry) (addr : String) : CloseResult :=
  match lookupConn reg addr with
  | none => ⟨reg, some .notFound, none⟩
  | some lis => ⟨eraseConn reg addr, none, some (cancelCause none lis)⟩

/-- Decision taken by `listener.Ready` and `listener.Next` before any
blocking: either an immediate return value, or blocking on the given entry
context `Done` channel. -/
inductive WaitDecision where
  | ret (e : Option Err)
  | wait (l : ListenerConn)
  deriving DecidableEq, Repr

/-- The `listener.Ready` method up to its blocking point (src/listener.go
lines 35-45): missing entry returns the not-found error; an entry with a
live socket returns nil immediately; otherwise the caller blocks on the
entry context. -/
def listenerReady (reg : Registry) (addr : String) : WaitDecision :=
  match lookupConn reg addr with
  | none => .ret (some .notFound)
  | some lis => if lis.conn.isSome then .ret none else .wait lis

/-- The `listener.Next` method up to its blocking point (src/listener.go
lines 55-63): missing entry returns the not-found error; otherwise the
caller always blocks on the entry context. -/
def listenerNext (reg : Registry) (addr : String) : WaitDecision :=
  match lookupConn reg addr with
  | none => .ret (some .notFound)
  | some lis => .wait lis

/-- Value returned by `Ready` and `Next` after `<-lis.ctx.Done()` fires with
latched cause `c` (src/listener.go lines 47-50 and 64-67): the cause unless
it is `context.Canceled`, in which case nil. -/
def ctxWaitResult (c : Err) : Option Err :=
  if c = .canceled then none else some c

/-- Behaviour of the remote peer behind one accepted socket, at the wire
level: from the framed request bytes, either the framed response bytes or a
transport error observed by the write or by the reads. -/
def Peer := List Nat → Except Err (List Nat)

/-- The private `listenerConn.send` method (src/listener.go lines 171-199):
one full round trip. The two header and payload writes and the two
`io.ReadFull` reads are one exchange with the peer; any failure along the
way returns the error without pushing anything, a response whose framing is
short fails like the corresponding `io.ReadFull`, and a complete response
payload is appended to `readChan` with a nil error. -/
def connSend (peer : Peer) (l : ListenerConn) (msg : List Nat) :
    ListenerConn × Option Err :=
  match peer (encodeFrame msg) with
  | .error e => (l, some e)
  | .ok bytes =>
    match decodeFrame bytes with
    | none => (l, some .eof)
    | some (payload, _) =>
      ({ l with readChan := l.readChan ++ [{ resp := payload, err := none }] }, none)

/-- The `listenerConn.runLoop` goroutine (src/listener.go lines 154-169),
driven by a select schedule. The select at lines 156-159 has two cases,
`<-ctx.Done()` and `msg := <-l.writeChan`; when both are ready Go picks one
of them arbitrarily, so each iteration consumes one entry of `sched`
recording that pick (`true` takes the `ctx.Done` case, `false` takes the
`writeChan` case; the entry is irrelevant when only one case is ready). A
done context taken makes the loop return; a cancelled session whose
`writeChan` is nonempty may therefore still, under a `false` pick, service
a queued payload on its socket. On a round-trip error the loop pushes an
empty response carrying the error onto `readChan`, returns if the error is
`io.EOF`, and continues otherwise. An exhausted schedule, or a live context
with an empty `writeChan` (neither select case ready), leaves the loop
parked: the state is returned unchanged with `loopExited` still false. -/
def runLoop (peer : Peer) : List Bool → ListenerConn → ListenerConn
  | [], l => l
  | choice :: sched, l =>
    if l.ctx.isSome && (l.writeChan.isEmpty || choice) then
      { l with loopExited := true }
    else
      match l.writeChan with
      | [] => l
      | msg :: rest =>
        match connSend peer { l with writeChan := rest } msg with
        | (l1, none) => runLoop peer sched l1
        | (l1, some e) =>
          if e = .eof then
            { l1 with readChan := l1.readChan ++ [{ resp := [], err := some e }],
                      loopExited := true }
          else
            runLoop peer sched
              { l1 with readChan := l1.readChan ++ [{ resp := [], err := some e }] }

/-- A peer that answers every request by echoing the request payload back,
correctly framed — the behaviour of `mockClient` in src/listener_test.go. -/
def echoPeer : Peer := fun frame =>
  match decodeFrame frame with
  | some (payload, _) => .ok (encodeFrame payload)
  | none => .error .eof

/-- A peer whose socket fails the round trip with the given error. -/
def failPeer (e : Err) : Peer := fun _ => .error e

/-- Classification performed by `listener.Send` (src/listener.go lines
72-82) together with the guard of `listenerConn.Send` (lines 201-204),
none of which blocks: a missing registry entry is the not-found error, an
entry with a nil socket is the no-active-connection error, and otherwise
the call proceeds into the queueing phase of `listenerConn.Send` against
the current entry. -/
inductive SendAttempt where
  | err (e : Err)
  | delegate (l : ListenerConn) (msg : List Nat)
  deriving DecidableEq, Repr

/-- The non-blocking prefix of `listener.Send` plus `listenerConn.Send`
(src/listener.go lines 72-82 and 201-204). -/
def listenerSend (reg : Registry) (addr : String) (msg : List Nat) : SendAttempt :=
  match lookupConn reg addr with
  | none => .err .notFound
  | some lis => if lis.conn.isNone then .err .noActiveConnection else .delegate lis msg

/-- Outcome of the first select of `listenerConn.Send` (src/listener.go
lines 206-210): either the payload is enqueued on `writeChan`, or the
cancelled context aborts the call with its cause. -/
inductive EnqueueOutcome where
  | enqueued (l : ListenerConn)
  | aborted (e : Err)
  deriving DecidableEq, Repr

/-- All cases of the first select of `listenerConn.Send` that are ready in
the given state; Go runs exactly one of them, chosen arbitrarily. The
channel case is ready while the 100-slot buffer has room. -/
def sendEnqueueOutcomes (l : ListenerConn) (msg : List Nat) : List EnqueueOutcome :=
  (if l.writeChan.length < 100
    then [.enqueued { l with writeChan := l.writeChan ++ [msg] }] else []) ++
  (match l.ctx with
   | some c => [.aborted c]
   | none => [])

/-- All cases of the second select of `listenerConn.Send` (src/listener.go
lines 212-217) that are ready in the given state; Go runs exactly one of
them, chosen arbitrarily. The channel case is ready when `readChan` is
nonempty and yields its front, delivered to whichever caller performs the
receive; the context case is ready once the entry is cancelled and returns
the empty response with the latched cause. -/
def sendAwaitOutcomes (l : ListenerConn) : List SendResp :=
  (match l.readChan with
   | r :: _ => [r]
   | [] => []) ++
  (match l.ctx with
   | some c => [{ resp := [], err := some c }]
   | none => [])

theorem lookup_insert_self (reg : Registry) (a : String) (l : ListenerConn) :
    lookupConn (insertConn reg a l) a = some l := by
  simp [lookupConn, insertConn, List.find?]

theorem find_filter_ne (reg : Registry) (a : String) :
    List.find? (fun p => p.1 == a) (List.filter (fun p => !(p.1 == a)) reg) = none := by
  induction reg with
  | nil => rfl
  | cons hd tl ih =>
    cases hb : (hd.1 == a) with
    | true => simp [List.filter_cons, hb, ih]
    | false => simp [List.filter_cons, List.find?_cons, hb, ih]

theorem lookup_erase_self (reg : Registry) (a : String) :
    lookupConn (eraseConn reg a) a = none := by
  simp [lookupConn, eraseConn, find_filter_ne]

theorem insert_unique_key (reg : Registry) (a : String) (l : ListenerConn) :
    List.filter (fun p => p.1 == a) (insertConn reg a l) = [(a, l)] := by
  have h : List.filter (fun p => p.1 == a)
      (List.filter (fun p => !(p.1 == a)) reg) = [] := by
    induction reg with
    | nil => rfl
    | cons hd tl ih =>
      cases hb : (hd.1 == a) with
      | true => simp [List.filter_cons, hb, ih]
      | false => simp [List.filter_cons, hb, ih]
  simp [insertConn, List.filter_cons, h]

theorem cancelCause_isSome (c : Option Err) (l : ListenerConn) :
    ((cancelCause c l).ctx).isSome = true := by
  unfold cancelCause
  by_cases h : l.ctx.isSome <;> simp [h]

theorem connSend_ctx (peer : Peer) (l : ListenerConn) (msg : List Nat) :
    ((connSend peer l msg).1).ctx = l.ctx := by
  unfold connSend
  split
  · rfl
  · split
    · rfl
    · rfl

theorem runLoop_ctx (peer : Peer) : ∀ (sched : List Bool) (l : ListenerConn),
    (runLoop peer sched l).ctx = l.ctx := by
  intro sched
  induction sched with
  | nil => intro l; rfl
  | cons choice cs ih =>
    intro l
    rw [runLoop]
    split
    · rfl
    · split
      · rfl
      · next msg rest _ =>
        have hc : ((connSend peer { l with writeChan := rest } msg).1).ctx = l.ctx :=
          connSend_ctx peer { l with writeChan := rest } msg
        rcases hcs : connSend peer { l with writeChan := rest } msg with ⟨l1, oe⟩
        rw [hcs] at hc
        cases oe with
        | none => rw [ih l1]; exact hc
        | some e =>
          by_cases he : e = .eof
          · simp only [he, if_true]
            exact hc
          · simp only [he, if_false]
            rw [ih _]
            exact hc

/-- Claim C1 — the code violates it while its own test asserts it. Concrete
schedule against an echoing peer: caller A enqueues payload `[97]`, caller B
enqueues payload `[98]` (both enqueue selects are enabled and shown below),
the loop services the first queued request and appends the response for A to
the shared `readChan`, and the second select of B is then enabled with
exactly that response at the front of the channel — so when B performs the
receive, its Send call returns the response produced for A's request, which
differs from the echo of B's own request. Nothing in `listenerConn.Send`
ties a dequeued response to the caller that enqueued the matching request.
TestListener_ConcurrentSends in src/listener_test.go asserts that every
concurrent caller gets its own payload back, so this schedule makes the
code contradict its own test. -/
theorem send_mispairing_trace :
    EnqueueOutcome.enqueued ⟨some 1, [[97]], [], none, false⟩ ∈
        sendEnqueueOutcomes ⟨some 1, [], [], none, false⟩ [97] ∧
      EnqueueOutcome.enqueued ⟨some 1, [[97], [98]], [], none, false⟩ ∈
        sendEnqueueOutcomes ⟨some 1, [[97]], [], none, false⟩ [98] ∧
      runLoop echoPeer [false] ⟨some 1, [[97], [98]], [], none, false⟩ =
        ⟨some 1, [[98]], [⟨[97], none⟩], none, false⟩ ∧
      sendAwaitOutcomes ⟨some 1, [[98]], [⟨[97], none⟩], none, false⟩ =
        [⟨[97], none⟩] ∧
      ([97] : List Nat) ≠ [98] := by
  refine ⟨?_, ?_, ?_, ?_, ?_⟩ <;> decide

/-- Claim C2 — counterexample. Concrete run of the loop with two queued
requests against a peer whose socket fails every round trip with a non-EOF
write error: the loop publishes the error for the first request, then keeps
going and services the second queued request as well, and the session
context is never cancelled — no cause is ever latched. The claim says the
loop publishes the error, marks the Session cancelled with that error as
cause, and exits servicing nothing further. -/
theorem runLoop_error_counterexample :
    (runLoop (failPeer (.connErr "w")) [false, false] ⟨some 1, [[1], [2]], [], none, false⟩).ctx
        = none ∧
      (runLoop (failPeer (.connErr "w")) [false, false] ⟨some 1, [[1], [2]], [], none, false⟩).readChan
        = [⟨[], some (.connErr "w")⟩, ⟨[], some (.connErr "w")⟩] ∧
      (runLoop (failPeer (.connErr "w")) [false, false] ⟨some 1, [[1], [2]], [], none, false⟩).loopExited
        = false := by
  refine ⟨?_, ?_, ?_⟩ <;> decide

/-- Claim C2 — amended. The loop never cancels the session context under any
peer, fuel and state; and one iteration from a live state on a failing round
trip publishes an empty response carrying the error on the inbound queue,
leaves the context untouched, and exits the loop exactly when the error is
`io.EOF`, continuing to service queued requests otherwise. -/
theorem runLoop_error_behavior :
    (∀ (peer : Peer) (sched : List Bool) (l : ListenerConn),
        (runLoop peer sched l).ctx = l.ctx) ∧
    ∀ (peer : Peer) (sock : Nat) (msg : List Nat) (rest : List (List Nat))
      (rs : List SendResp) (e : Err) (choice : Bool),
      peer (encodeFrame msg) = .error e →
      runLoop peer [choice] ⟨some sock, msg :: rest, rs, none, false⟩ =
        if e = .eof then ⟨some sock, rest, rs ++ [⟨[], some e⟩], none, true⟩
        else ⟨some sock, rest, rs ++ [⟨[], some e⟩], none, false⟩ := by
  refine ⟨runLoop_ctx, ?_⟩
  intro peer sock msg rest rs e choice h
  by_cases he : e = .eof <;>
    simp [runLoop, connSend, h, he]

/-- Witness for runLoop_error_behavior at a concrete failing peer. -/
theorem runLoop_error_behavior_witness :
    (failPeer Err.eof) (encodeFrame [7]) = .error .eof ∧
      runLoop (failPeer Err.eof) [false] ⟨some 2, [[7]], [], none, false⟩ =
        ⟨some 2, [], [⟨[], some .eof⟩], none, true⟩ := by
  refine ⟨rfl, ?_⟩
  have h := runLoop_error_behavior.2 (failPeer Err.eof) 2 [7] [] [] .eof false rfl
  simpa using h

/-- Claim C4 — counterexample. The claim promises that any Send still
pending against the superseded Session completes with an error rather than
hanging or reaching the stale socket. Concrete run refuting the
reaching-the-stale-socket part: a caller has enqueued payload `[42]` and is
blocked awaiting its response when a new socket is accepted. The accept
transition cancels the old session but never closes its socket (the accept
loop at src/listener.go lines 133-148 calls `old.cancel(nil)` only), so the
old session's loop, whose select at lines 156-159 still has the `writeChan`
case ready alongside `ctx.Done`, may legally pick the channel case: under
that schedule it services the pending request on the stale socket against
the still-answering old peer, and the await select of the pending Send then
offers the non-error stale response at the front of `readChan` — the
pending Send may complete successfully through the stale socket instead of
with an error. -/
theorem accept_stale_socket_counterexample :
    (acceptStep [("a", ⟨some 1, [[42]], [], none, false⟩)] "a" 2).2 =
        some ⟨some 1, [[42]], [], some .canceled, false⟩ ∧
      runLoop echoPeer [false] ⟨some 1, [[42]], [], some .canceled, false⟩ =
        ⟨some 1, [], [⟨[42], none⟩], some .canceled, false⟩ ∧
      sendAwaitOutcomes ⟨some 1, [], [⟨[42], none⟩], some .canceled, false⟩ =
        [⟨[42], none⟩, ⟨[], some .canceled⟩] ∧
      (SendResp.mk [42] none).err = none := by
  refine ⟨?_, ?_, ?_, ?_⟩ <;> decide

/-- Claim C4 — amended. The accept transition is atomic under the exclusive
lock: it cancels the previous session with the nil (superseded) cause and
installs the fresh session owning the new socket, leaving exactly one entry
for the address in the registry, and a subsequent Send delegates to the new
session. A Send still pending against the superseded session cannot hang:
after the cancellation each of its selects always has a ready case, the
context case returning the canceled error, and when no response is queued
the await select offers exactly that error. Completion with an error is not
guaranteed, however: replacement never closes the superseded socket, and
the cancelled loop may legally service a still-queued request on it, so the
pending Send may instead complete with the old peer's response (see the
counterexample). -/
theorem accept_replacement (reg : Registry) (addr : String) (sock : Nat)
    (old : ListenerConn) (msg m : List Nat)
    (h : lookupConn reg addr = some old) (hctx : old.ctx = none) :
    lookupConn (acceptStep reg addr sock).1 addr =
        some ⟨some sock, [], [], none, false⟩ ∧
      List.filter (fun p => p.1 == addr) (acceptStep reg addr sock).1 =
        [(addr, ⟨some sock, [], [], none, false⟩)] ∧
      listenerSend (acceptStep reg addr sock).1 addr msg =
        .delegate ⟨some sock, [], [], none, false⟩ msg ∧
      (acceptStep reg addr sock).2 = some { old with ctx := some .canceled } ∧
      sendAwaitOutcomes { old with ctx := some .canceled } ≠ [] ∧
      (⟨[], some .canceled⟩ : SendResp) ∈
        sendAwaitOutcomes { old with ctx := some .canceled } ∧
      (old.readChan = [] →
        sendAwaitOutcomes { old with ctx := some .canceled } =
          [⟨[], some .canceled⟩]) ∧
      EnqueueOutcome.aborted .canceled ∈
        sendEnqueueOutcomes { old with ctx := some .canceled } m := by
  refine ⟨?_, ?_, ?_, ?_, ?_, ?_, ?_, ?_⟩
  · exact lookup_insert_self reg addr _
  · exact insert_unique_key reg addr _
  · simp [listenerSend, acceptStep, lookup_insert_self]
  · simp [acceptStep, h, cancelCause, hctx]
  · cases hrc : old.readChan <;> simp [sendAwaitOutcomes, hrc]
  · cases hrc : old.readChan <;> simp [sendAwaitOutcomes, hrc]
  · intro hrc
    simp [sendAwaitOutcomes, hrc]
  · simp [sendEnqueueOutcomes]

/-- Witness for accept_replacement at a concrete registry. -/
theorem accept_replacement_witness :
    lookupConn [("a", ⟨some 1, [], [], none, false⟩)] "a" =
        some ⟨some 1, [], [], none, false⟩ ∧
      (⟨some 1, [], [], none, false⟩ : ListenerConn).ctx = none ∧
      (acceptStep [("a", ⟨some 1, [], [], none, false⟩)] "a" 2).2 =
        some ⟨some 1, [], [], some .canceled, false⟩ := by
  refine ⟨by decide, by decide, ?_⟩
  exact (accept_replacement [("a", ⟨some 1, [], [], none, false⟩)] "a" 2
    ⟨some 1, [], [], none, false⟩ [3] [4] (by decide) rfl).2.2.2.1

/-- Claim C5 — counterexample. Concrete run: the session loop, against a
peer whose socket fails with `io.EOF`, terminates (publishes the error and
returns) while the session context stays uncancelled — so a caller blocked
in `Next` on this entry, whose only wake-up condition is the context
becoming done, is not unblocked by this failure termination and observes no
failure cause. The claim says Next returns the failure cause whenever the
current Session terminated due to a failure. -/
theorem next_transport_failure_counterexample :
    listenerNext [("a", ⟨some 1, [[5]], [], none, false⟩)] "a" =
        .wait ⟨some 1, [[5]], [], none, false⟩ ∧
      runLoop (failPeer .eof) [false] ⟨some 1, [[5]], [], none, false⟩ =
        ⟨some 1, [], [⟨[], some .eof⟩], none, true⟩ := by
  refine ⟨?_, ?_⟩ <;> decide

/-- Claim C5 — amended. Next blocks until the entry context it looked up is
cancelled, and the value it then returns is nil exactly for the canceled
(nil) cause — latched by supersession and by Close — and the cause itself
for a non-nil cause, which only the accept-failure path latches; the
session loop itself never cancels the context, so a transport failure that
terminates the loop does not make Next return. -/
theorem next_unblock_behavior :
    (∀ (reg : Registry) (addr : String) (lis : ListenerConn),
        lookupConn reg addr = some lis → listenerNext reg addr = .wait lis) ∧
    ctxWaitResult .canceled = none ∧
    (∀ e : Err, e ≠ .canceled → ctxWaitResult e = some e) ∧
    (∀ (reg : Registry) (addr : String) (sock : Nat) (old : ListenerConn),
        lookupConn reg addr = some old → old.ctx = none →
        (acceptStep reg addr sock).2 = some { old with ctx := some .canceled }) ∧
    (∀ (reg : Registry) (addr : String) (e : Err) (lis : ListenerConn),
        lookupConn reg addr = some lis → lis.ctx = none →
        lookupConn (acceptFail reg addr e) addr =
          some { lis with ctx := some e }) ∧
    (∀ (peer : Peer) (sched : List Bool) (l : ListenerConn),
        (runLoop peer sched l).ctx = l.ctx) := by
  refine ⟨?_, rfl, ?_, ?_, ?_, runLoop_ctx⟩
  · intro reg addr lis h
    simp [listenerNext, h]
  · intro e he
    simp [ctxWaitResult, he]
  · intro reg addr sock old h hctx
    simp [acceptStep, h, cancelCause, hctx]
  · intro reg addr e lis h hctx
    simp [acceptFail, h, lookup_insert_self, cancelCause, hctx]

/-- Witness for next_unblock_behavior at concrete inputs. -/
theorem next_unblock_behavior_witness :
    (Err.eof ≠ Err.canceled ∧ ctxWaitResult .eof = some .eof) ∧
      lookupConn [("a", ⟨none, [], [], none, false⟩)] "a" =
          some ⟨none, [], [], none, false⟩ ∧
      listenerNext [("a", ⟨none, [], [], none, false⟩)] "a" =
        .wait ⟨none, [], [], none, false⟩ :=
  ⟨⟨by decide, next_unblock_behavior.2.2.1 .eof (by decide)⟩, by decide,
   next_unblock_behavior.1 [("a", ⟨none, [], [], none, false⟩)] "a"
     ⟨none, [], [], none, false⟩ (by decide)⟩

/-- Claim C6. Send classifies without ever blocking: on a freshly added
listener, whose entry has no socket yet, it returns the no-active-connection
error; on an address that is absent from the registry (never registered, or
already removed by Close) it returns the not-found error; and when the entry
holds a live socket it proceeds into the queueing phase of the current
session's send with the given payload. -/
theorem send_no_connection :
    (∀ (reg : Registry) (actualAddr : String) (msg : List Nat),
        listenerSend (addListener reg actualAddr).1
          (addListener reg actualAddr).2.addr msg = .err .noActiveConnection) ∧
    (∀ (reg : Registry) (addr : String) (msg : List Nat),
        lookupConn reg addr = none → listenerSend reg addr msg = .err .notFound) ∧
    ∀ (reg : Registry) (addr : String) (msg : List Nat) (lis : ListenerConn)
      (sock : Nat), lookupConn reg addr = some lis → lis.conn = some sock →
      listenerSend reg addr msg = .delegate lis msg := by
  refine ⟨?_, ?_, ?_⟩
  · intro reg actualAddr msg
    simp [listenerSend, addListener, lookup_insert_self]
  · intro reg addr msg h
    simp [listenerSend, h]
  · intro reg addr msg lis sock h hconn
    simp [listenerSend, h, hconn]

/-- Witness for send_no_connection at concrete inputs. -/
theorem send_no_connection_witness :
    lookupConn ([] : Registry) "a" = none ∧
      listenerSend ([] : Registry) "a" [1] = .err .notFound :=
  ⟨rfl, send_no_connection.2.1 [] "a" [1] rfl⟩

/-- Claim C7. Ready returns nil immediately when the entry already holds a
socket; with no socket installed it blocks on the entry context, and the
value computed at wake-up is nil for the canceled cause — which is exactly
what the accept transition latches on the entry it displaces when a session
is installed, covering the nil-cause termination — and the cause itself
when the latched cause is non-nil. -/
theorem ready_behavior :
    (∀ (reg : Registry) (addr : String) (lis : ListenerConn) (sock : Nat),
        lookupConn reg addr = some lis → lis.conn = some sock →
        listenerReady reg addr = .ret none) ∧
    (∀ (reg : Registry) (addr : String) (lis : ListenerConn),
        lookupConn reg addr = some lis → lis.conn = none →
        listenerReady reg addr = .wait lis) ∧
    ctxWaitResult .canceled = none ∧
    (∀ e : Err, e ≠ .canceled → ctxWaitResult e = some e) ∧
    ∀ (reg : Registry) (addr : String) (sock : Nat) (old : ListenerConn),
      lookupConn reg addr = some old → old.ctx = none →
      (acceptStep reg addr sock).2 = some { old with ctx := some .canceled } := by
  refine ⟨?_, ?_, rfl, ?_, ?_⟩
  · intro reg addr lis sock h hconn
    simp [listenerReady, h, hconn]
  · intro reg addr lis h hconn
    simp [listenerReady, h, hconn]
  · intro e he
    simp [ctxWaitResult, he]
  · intro reg addr sock old h hctx
    simp [acceptStep, h, cancelCause, hctx]

/-- Witness for ready_behavior at concrete inputs. -/
theorem ready_behavior_witness :
    (lookupConn [("a", ⟨some 3, [], [], none, false⟩)] "a" =
        some ⟨some 3, [], [], none, false⟩ ∧
      listenerReady [("a", ⟨some 3, [], [], none, false⟩)] "a" = .ret none) ∧
      (Err.connErr "x" ≠ Err.canceled ∧
        ctxWaitResult (.connErr "x") = some (.connErr "x")) :=
  ⟨⟨by decide,
    ready_behavior.1 [("a", ⟨some 3, [], [], none, false⟩)] "a"
      ⟨some 3, [], [], none, false⟩ 3 (by decide) rfl⟩,
   ⟨by decide, ready_behavior.2.2.2.1 (.connErr "x") (by decide)⟩⟩

/-- Claim C8. Close on a registered address succeeds, cancels the entry it
removes (a cause becomes latched on the context that callers of the entry
hold), and removes it from the registry in one atomic transition; on the
resulting registry the address is absent, Send returns the not-found error,
and a second Close returns the not-found error. -/
theorem close_behavior (reg : Registry) (addr : String) (lis : ListenerConn)
    (msg : List Nat) (h : lookupConn reg addr = some lis) :
    (closeListener reg addr).err = none ∧
      (closeListener reg addr).cancelledEntry = some (cancelCause none lis) ∧
      ((cancelCause none lis).ctx).isSome = true ∧
      lookupConn (closeListener reg addr).reg addr = none ∧
      listenerSend (closeListener reg addr).reg addr msg = .err .notFound ∧
      (closeListener (closeListener reg addr).reg addr).err = some .notFound := by
  refine ⟨?_, ?_, cancelCause_isSome none lis, ?_, ?_, ?_⟩
  · simp [closeListener, h]
  · simp [closeListener, h]
  · simp [closeListener, h, lookup_erase_self]
  · simp [listenerSend, closeListener, h, lookup_erase_self]
  · simp [closeListener, h, lookup_erase_self]

/-- Witness for close_behavior at a concrete registry. -/
theorem close_behavior_witness :
    lookupConn [("a", ⟨some 1, [], [], none, false⟩)] "a" =
        some ⟨some 1, [], [], none, false⟩ ∧
      (closeListener [("a", ⟨some 1, [], [], none, false⟩)] "a").err = none ∧
      lookupConn (closeListener [("a", ⟨some 1, [], [], none, false⟩)] "a").reg "a" =
        none :=
  ⟨by decide,
   (close_behavior [("a", ⟨some 1, [], [], none, false⟩)] "a"
      ⟨some 1, [], [], none, false⟩ [9] (by decide)).1,
   (close_behavior [("a", ⟨some 1, [], [], none, false⟩)] "a"
      ⟨some 1, [], [], none, false⟩ [9] (by decide)).2.2.2.1⟩

/-- Claim C9. The registry entry installed by AddListener is keyed by the
address string actually bound, the returned handle exposes that same
address, and Ready, Next, Send and Close invoked through the handle all
resolve to that entry: none of them reports not-found, Ready and Next block
on the installed entry, Send classifies against its (absent) socket, and
Close succeeds in removing it. -/
theorem addListener_binding (reg : Registry) (actualAddr : String) (msg : List Nat) :
    (addListener reg actualAddr).2.addr = actualAddr ∧
      lookupConn (addListener reg actualAddr).1 actualAddr =
        some ⟨none, [], [], none, false⟩ ∧
      listenerReady (addListener reg actualAddr).1 (addListener reg actualAddr).2.addr =
        .wait ⟨none, [], [], none, false⟩ ∧
      listenerNext (addListener reg actualAddr).1 (addListener reg actualAddr).2.addr =
        .wait ⟨none, [], [], none, false⟩ ∧
      listenerSend (addListener reg actualAddr).1 (addListener reg actualAddr).2.addr msg =
        .err .noActiveConnection ∧
      (closeListener (addListener reg actualAddr).1 (addListener reg actualAddr).2.addr).err =
        none := by
  refine ⟨rfl, ?_, ?_, ?_, ?_, ?_⟩
  · exact lookup_insert_self reg actualAddr _
  · simp [listenerReady, addListener, lookup_insert_self]
  · simp [listenerNext, addListener, lookup_insert_self]
  · simp [listenerSend, addListener, lookup_insert_self]
  · simp [closeListener, addListener, lookup_insert_self]

/-- Claim C10. A caller blocked in Ready before any connection arrived waits
on the entry context; Close cancels that context with a nil cause, which
latches the canceled cause, and the value Ready computes for the canceled
cause is nil — so Ready reports success even though the listener was closed,
no session was ever installed, and the entry is gone from the registry.
Ready cannot distinguish this wake-up from a connection arriving. -/
theorem close_while_ready_waiting (reg : Registry) (addr : String)
    (lis : ListenerConn) (h : lookupConn reg addr = some lis)
    (hconn : lis.conn = none) (hctx : lis.ctx = none) :
    listenerReady reg addr = .wait lis ∧
      (closeListener reg addr).err = none ∧
      (closeListener reg addr).cancelledEntry =
        some { lis with ctx := some .canceled } ∧
      ctxWaitResult .canceled = none ∧
      lookupConn (closeListener reg addr).reg addr = none := by
  refine ⟨?_, ?_, ?_, rfl, ?_⟩
  · simp [listenerReady, h, hconn]
  · simp [closeListener, h]
  · simp [closeListener, h, cancelCause, hctx]
  · simp [closeListener, h, lookup_erase_self]

/-- Witness for close_while_ready_waiting at a concrete registry. -/
theorem close_while_ready_waiting_witness :
    lookupConn [("a", ⟨none, [], [], none, false⟩)] "a" =
        some ⟨none, [], [], none, false⟩ ∧
      listenerReady [("a", ⟨none, [], [], none, false⟩)] "a" =
        .wait ⟨none, [], [], none, false⟩ ∧
      (closeListener [("a", ⟨none, [], [], none, false⟩)] "a").cancelledEntry =
        some ⟨none, [], [], some .canceled, false⟩ :=
  ⟨by decide,
   (close_while_ready_waiting [("a", ⟨none, [], [], none, false⟩)] "a"
      ⟨none, [], [], none, false⟩ (by decide) rfl rfl).1,
   (close_while_ready_waiting [("a", ⟨none, [], [], none, false⟩)] "a"
      ⟨none, [], [], none, false⟩ (by decide) rfl rfl).2.2.1⟩
